import Mathlib

/-!
Shallow embedding of `raw_data_conversion/timesync/samplesource.c`:
the sample-source loader (`SampleSourceOpen`), the indexed sample view
(`SampleSourceRead`) and the release operation (`SampleSourceClose`),
together with the comment-header metadata parsing loop that `SampleSourceOpen`
runs over the WAV file's comment text.

Machine integers are modelled by `Nat`/`Int` (no overflow is relevant to the
properties below), C `double`/`float` by `Rat` (all numeric constants involved
are exactly representable), byte buffers by `List Nat`, and the fallible
external collaborators (file system, WAV container reader, `malloc`, `fread`)
by explicit inputs in an `OpenEnv` record.  The external time-string parser
`TimeParse` (from `timestamp.h`, not part of the analysed source) is a
parameter `tp : List Char → Rat` throughout.
-/

namespace SampleSourceC

/-- One line of `strtok(infoComment, "\n")` tokenisation: split on newline
characters, dropping empty tokens, as `strtok` does. -/
def splitLinesAux : List Char → List Char → List (List Char)
  | [], acc => if acc.isEmpty then [] else [acc.reverse]
  | c :: rest, acc =>
    if c = '\n' then
      if acc.isEmpty then splitLinesAux rest []
      else acc.reverse :: splitLinesAux rest []
    else splitLinesAux rest (c :: acc)

/-- The comment lines scanned by the header-parsing loop: `strtok` tokens,
capped at `MAX_FIELDS = 32` (overflow lines are silently dropped). -/
def commentLines (cs : List Char) : List (List Char) :=
  (splitLinesAux cs []).take 32

/-- The test `strncmp(commentLines[i], "Time:", 5) == 0`. -/
def isTimeLine (l : List Char) : Bool :=
  l.take 5 == "Time:".data

/-- The test `strncmp(line, "Scale-", 6) == 0 && line[6] >= '1' && line[6] <= '9'
&& line[7] == ':'`; on success returns `chan = line[6] - '1'`. -/
def scaleChan (l : List Char) : Option Nat :=
  if l.take 6 == "Scale-".data then
    match l[6]?, l[7]? with
    | some c6, some c7 =>
      if ((Char.toNat '1' ≤ c6.toNat && c6.toNat ≤ Char.toNat '9') && c7 == ':') then
        some (c6.toNat - Char.toNat '1')
      else none
    | _, _ => none
  else none

/-- Numeric value of a digit string, most significant first. -/
def digitsVal (ds : List Char) : Nat :=
  ds.foldl (fun a c => 10 * a + (c.toNat - 48)) 0

/-- Modelled from the spec: the external standard text-to-number conversion
(C `atof`, not part of the analysed source) — "Remainder after the colon is
parsed as a decimal number", "malformed numeric remainder yields 0 via
standard text-to-number conversion fallback": skip leading whitespace, an
optional sign, then a run of digits with an optional fractional part; any
input with no leading numeric part yields 0. -/
def atofModel (cs : List Char) : Rat :=
  let s1 := cs.dropWhile (fun c => c == ' ' || c == '\t')
  let neg : Bool :=
    match s1 with
    | c :: _ => c == '-'
    | [] => false
  let s2 :=
    match s1 with
    | c :: rest => if c == '-' || c == '+' then rest else s1
    | [] => []
  let intDigits := s2.takeWhile Char.isDigit
  let s3 := s2.drop intDigits.length
  let fracDigits :=
    match s3 with
    | c :: rest => if c == '.' then rest.takeWhile Char.isDigit else []
    | [] => []
  let mag : Rat :=
    if fracDigits.isEmpty then (digitsVal intDigits : Nat)
    else (digitsVal intDigits : Nat) + (digitsVal fracDigits : Nat) / (10 : Rat) ^ fracDigits.length
  if neg then -mag else mag

/-- State of the header-parsing loop in `SampleSourceOpen` (lines 144-163):
`startTime`, `parsedTime`, the per-channel `scale` array (initialised to 1.0,
`SAMPLE_SOURCE_CHANNELS_MAX` entries) and the `parsedScale` flag array. -/
structure MetaState where
  startTime : Rat
  parsedTime : Bool
  scale : List Rat
  parsedScale : List Bool
deriving Repr, DecidableEq

/-- Initial loop state: `startTime = 0`, `parsedTime = false`, every channel
scale defaulted to `1.0`, no scale parsed.  `numChannelsMax` models the header
constant `SAMPLE_SOURCE_CHANNELS_MAX`. -/
def initMeta (numChannelsMax : Nat) : MetaState :=
  { startTime := 0
  , parsedTime := false
  , scale := List.replicate numChannelsMax 1
  , parsedScale := List.replicate numChannelsMax false }

/-- One iteration of the header-parsing loop body for one comment line:
a `Time:` line unconditionally stores the parsed value into `startTime` and
sets `parsedTime` only when the value is strictly positive; a `Scale-d:` line
unconditionally stores `atof(rest) / 32768.0` into `scale[chan]` and sets
`parsedScale[chan]` only when the stored scale is strictly positive. -/
def processLine (tp : List Char → Rat) (st : MetaState) (l : List Char) : MetaState :=
  if isTimeLine l then
    let t := tp (l.drop 5)
    { st with startTime := t, parsedTime := if 0 < t then true else st.parsedTime }
  else
    match scaleChan l with
    | some chan =>
      let sc : Rat := atofModel (l.drop 8) / 32768
      { st with scale := st.scale.set chan sc
              , parsedScale := if 0 < sc then st.parsedScale.set chan true else st.parsedScale }
    | none => st

/-- The whole metadata-parsing stage of `SampleSourceOpen`: tokenise the
comment text and run the loop over every (capped) line. -/
def parseCommentMeta (numChannelsMax : Nat) (tp : List Char → Rat) (cs : List Char) :
    MetaState :=
  (commentLines cs).foldl (processLine tp) (initMeta numChannelsMax)

/-- The post-loop check `if (!parsedTime) { fprintf(stderr, "WARNING: ...") }`:
`true` exactly when the missing-Time warning is emitted. -/
def timeWarning (st : MetaState) : Bool :=
  !st.parsedTime

/-- The post-loop check `for (i = 0; i < 3; i++) if (!parsedScale[i]) warn`:
the channel indices (hard-coded to range over 0,1,2 only) for which the
missing-Scale warning is emitted. -/
def missingScaleWarnings (st : MetaState) : List Nat :=
  (List.range 3).filter (fun i => !(st.parsedScale.getD i false))

/-- The channel indices written by the `Scale-` branch of the loop, in scan
order, for a given comment text: each `Scale-<digit>:` line writes
`scale[digit - '1']` and possibly `parsedScale[digit - '1']`. -/
def scaleWriteIndices (cs : List Char) : List Nat :=
  (commentLines cs).filterMap scaleChan

/-- The `sample_source_t` record (fields per the data model: per-channel
scales, PCM layout fields, start time, and the owned byte buffer with its
tracked length; `buffer = none` models a `NULL` buffer pointer). -/
structure sample_source_t where
  scale : List Rat
  infoComment : List Char
  dataStartOffset : Nat
  numChannels : Nat
  numSamples : Nat
  sampleRate : Int
  startTime : Rat
  buffer : Option (List Nat)
  bufferLength : Nat
deriving Repr, DecidableEq

/-- `sizeof(int16_t)`. -/
def sizeof_int16 : Nat := 2

/-- Result of `SampleSourceRead`: the byte offset (from the start of the owned
buffer) of the returned `const int16_t *` pointer, and the value stored
through the `span` out-parameter (`none` when the caller passed `NULL`). -/
structure ReadResult where
  viewOffset : Nat
  spanOut : Option Nat
deriving Repr, DecidableEq

/-- `SampleSourceRead` (lines 211-218): if a span destination was supplied,
store `sizeof(int16_t) * numChannels`; return the pointer
`buffer + dataStartOffset + sizeof(int16_t) * index * numChannels`.
`minCount` is accepted but never used. -/
def SampleSourceRead (s : sample_source_t) (index minCount : Nat) (hasSpanDest : Bool) :
    ReadResult :=
  { spanOut := if hasSpanDest then some (sizeof_int16 * s.numChannels) else none
  , viewOffset := s.dataStartOffset + sizeof_int16 * index * s.numChannels }

/-- `SampleSourceClose` (lines 222-234): free the buffer if it is non-`NULL`,
then set `bufferLength = 0`.  The returned `Bool` records whether a `free`
actually happened on this call (to make double-free observable). -/
def SampleSourceClose (s : sample_source_t) : sample_source_t × Bool :=
  match s.buffer with
  | some _ => ({ s with buffer := none, bufferLength := 0 }, true)
  | none => ({ s with bufferLength := 0 }, false)

/-- The fields of `WavInfo` consumed by `SampleSourceOpen` after the external
`WavRead` succeeds. -/
structure WavInfo where
  bytesPerChannel : Int
  chans : Int
  freq : Int
  offset : Nat
  numSamples : Nat
  infoComment : List Char
deriving Repr, DecidableEq

/-- The exit codes `SampleSourceOpen` can return (`exits.h` conventions):
`EXIT_OK`, `EXIT_NOINPUT`, `EXIT_DATAERR`, `EXIT_SOFTWARE`, `EXIT_IOERR`. -/
inductive exit_code where
  | ok
  | noInput
  | dataErr
  | software
  | ioErr
deriving Repr, DecidableEq

/-- Outcomes of the external collaborators that `SampleSourceOpen` calls:
whether `fopen` succeeds, the result of `WavRead` (`none` = parse failure),
the file's bytes (`ftell` length is `content.length`), and whether `malloc`
and the full `fread` succeed. -/
structure OpenEnv where
  fileExists : Bool
  wavResult : Option WavInfo
  content : List Nat
  allocOk : Bool
  readOk : Bool
deriving Repr, DecidableEq

/-- Resource ledger at the moment `SampleSourceOpen` returns: a flag is `true`
when the corresponding resource is still held at return and is not owned by a
returned `sample_source_t` — `fileOpen` for the `FILE *` handle,
`commentAlloc` for the `strdup`-ed comment text, `bufferAlloc` for the
`malloc`-ed data buffer. -/
structure Resources where
  fileOpen : Bool
  commentAlloc : Bool
  bufferAlloc : Bool
deriving Repr, DecidableEq

/-- `SampleSourceOpen` (lines 102-207), with the external calls resolved by
`env`: open the file (`EXIT_NOINPUT` on failure), run `WavRead`
(`EXIT_DATAERR` on failure), validate bytes-per-channel = 2, channel count in
`[1, SAMPLE_SOURCE_CHANNELS_MAX]` and sample rate ≥ 1 (`EXIT_DATAERR`),
`strdup` and parse the comment metadata, copy the header fields, then
allocate and read the whole file (`EXIT_SOFTWARE` / `EXIT_IOERR`).  Alongside
the result it returns the resource ledger of the taken path; note the C code
does not free the `strdup`-ed comment on the `EXIT_SOFTWARE` and `EXIT_IOERR`
paths. -/
def SampleSourceOpen (numChannelsMax : Nat) (tp : List Char → Rat) (env : OpenEnv) :
    Except exit_code sample_source_t × Resources :=
  if env.fileExists = false then
    (.error .noInput, ⟨false, false, false⟩)
  else
    match env.wavResult with
    | none => (.error .dataErr, ⟨false, false, false⟩)
    | some w =>
      if w.bytesPerChannel ≠ 2 then (.error .dataErr, ⟨false, false, false⟩)
      else if w.chans < 1 ∨ (numChannelsMax : Int) < w.chans then
        (.error .dataErr, ⟨false, false, false⟩)
      else if w.freq < 1 then (.error .dataErr, ⟨false, false, false⟩)
      else
        let meta := parseCommentMeta numChannelsMax tp w.infoComment
        if env.allocOk = false then (.error .software, ⟨false, true, false⟩)
        else if env.readOk = false then (.error .ioErr, ⟨false, true, false⟩)
        else
          (.ok { scale := meta.scale
               , infoComment := w.infoComment
               , dataStartOffset := w.offset
               , numChannels := w.chans.toNat
               , numSamples := w.numSamples
               , sampleRate := w.freq
               , startTime := meta.startTime
               , buffer := some env.content
               , bufferLength := env.content.length },
           ⟨false, false, false⟩)

/-- The `open` result restricted to the start time of the returned source
(errors passed through). -/
def resultStartTime (r : Except exit_code sample_source_t × Resources) :
    Except exit_code Rat :=
  r.1.map sample_source_t.startTime

/-- The `open` result restricted to entry `i` of the scale array of the
returned source (errors passed through). -/
def resultScaleAt (i : Nat) (r : Except exit_code sample_source_t × Resources) :
    Except exit_code (Option Rat) :=
  r.1.map (fun s => s.scale[i]?)

/-- The exit code of an `open` result (success collapsed to `EXIT_OK`). -/
def resultCode : Except exit_code sample_source_t → exit_code
  | .ok _ => .ok
  | .error e => e

/-- `SampleSourceOpen` again (lines 102-207), now also tracking the in-place
writes the C code makes into the caller's `sample_source_t` before each
return, so that the struct state left behind by a failing open is visible:
the function takes the caller's struct `s0` and returns the exit code, the
struct as it stands at the return statement, and the resource ledger.
Write order per the source: nothing before the `fopen` check; the default
scales (lines 113-116) and the cleared info text (lines 118-121, of which
this model keeps the comment field) before `WavRead`, which on success fills
the comment buffer in place (lines 123-128); the parsed scales (lines
147-163, modelled by `parseCommentMeta`, which starts from the same default
scales) and the header fields and start time (lines 174-178) before the
allocation and read; the buffer fields (lines 195-196) only after both
succeed. -/
def SampleSourceOpenMut (numChannelsMax : Nat) (tp : List Char → Rat) (env : OpenEnv)
    (s0 : sample_source_t) : exit_code × sample_source_t × Resources :=
  if env.fileExists = false then
    (.noInput, s0, ⟨false, false, false⟩)
  else
    let s1 := { s0 with scale := List.replicate numChannelsMax 1, infoComment := [] }
    match env.wavResult with
    | none => (.dataErr, s1, ⟨false, false, false⟩)
    | some w =>
      let s2 := { s1 with infoComment := w.infoComment }
      if w.bytesPerChannel ≠ 2 then (.dataErr, s2, ⟨false, false, false⟩)
      else if w.chans < 1 ∨ (numChannelsMax : Int) < w.chans then
        (.dataErr, s2, ⟨false, false, false⟩)
      else if w.freq < 1 then (.dataErr, s2, ⟨false, false, false⟩)
      else
        let meta := parseCommentMeta numChannelsMax tp w.infoComment
        let s3 := { s2 with scale := meta.scale
                          , dataStartOffset := w.offset
                          , numChannels := w.chans.toNat
                          , numSamples := w.numSamples
                          , sampleRate := w.freq
                          , startTime := meta.startTime }
        if env.allocOk = false then (.software, s3, ⟨false, true, false⟩)
        else if env.readOk = false then (.ioErr, s3, ⟨false, true, false⟩)
        else
          (.ok, { s3 with buffer := some env.content
                        , bufferLength := env.content.length },
           ⟨false, false, false⟩)

/-- A caller's `sample_source_t` before `SampleSourceOpen` has run on it
(all fields zero or empty). -/
def zeroSource : sample_source_t :=
  { scale := [], infoComment := [], dataStartOffset := 0, numChannels := 0
  , numSamples := 0, sampleRate := 0, startTime := 0, buffer := none, bufferLength := 0 }

/-- A trivial stand-in for the external time parser (always 0). -/
def tpZero : List Char → Rat := fun _ => 0

/-- A stand-in for the external time parser that parses every string to a
negative value (the spec allows `TimeParse` to yield zero/negative values). -/
def tpNegOne : List Char → Rat := fun _ => -1

/-- The round-trip comment block of the spec's testable property. -/
def c3text : List Char := "Time: 2020-01-01T00:00:00Z\nScale-1: 16384\nScale-2: 8192\n".data

/-- The timestamp remainder handed to the external time parser for the
round-trip comment's `Time:` line (everything after the 5-char prefix). -/
def c3stamp : List Char := " 2020-01-01T00:00:00Z".data

/-- First line of the round-trip comment. -/
def c3timeLn : List Char := "Time: 2020-01-01T00:00:00Z".data

/-- Second line of the round-trip comment. -/
def c3s1Ln : List Char := "Scale-1: 16384".data

/-- Third line of the round-trip comment. -/
def c3s2Ln : List Char := "Scale-2: 8192".data

/-- A comment whose only `Time:` line parses (under `tpNegOne`) to a
negative, hence non-positive, value. -/
def c4text : List Char := "Time:x".data

/-- A well-formed WAV header whose comment is `c4text`. -/
def c4wav : WavInfo :=
  { bytesPerChannel := 2, chans := 3, freq := 100, offset := 44
  , numSamples := 10, infoComment := c4text }

/-- An environment in which every external step succeeds and the WAV header
is `c4wav`. -/
def c4env : OpenEnv :=
  { fileExists := true, wavResult := some c4wav, content := [1, 2, 3]
  , allocOk := true, readOk := true }

/-- A comment with a `Scale-1:` line whose value parses to 0 (so the
resulting scale is not strictly positive). -/
def c5text : List Char := "Scale-1:0".data

/-- That comment's single line. -/
def c5line : List Char := "Scale-1:0".data

/-- A well-formed WAV header whose comment text is empty (no Scale lines). -/
def c5wav : WavInfo :=
  { bytesPerChannel := 2, chans := 3, freq := 100, offset := 44
  , numSamples := 10, infoComment := [] }

/-- An environment in which every external step succeeds and the WAV header
is `c5wav`. -/
def c5env : OpenEnv :=
  { fileExists := true, wavResult := some c5wav, content := [1, 2, 3]
  , allocOk := true, readOk := true }

/-- The `Scale-5` comment block of the spec's channel-index quirk property. -/
def c6text : List Char := "Scale-5: 100".data

/-- That comment's single line. -/
def c6line : List Char := "Scale-5: 100".data

/-- A WAV header with an unsupported bytes-per-channel value (3). -/
def c2wav : WavInfo :=
  { bytesPerChannel := 3, chans := 1, freq := 100, offset := 44
  , numSamples := 10, infoComment := [] }

/-- An environment whose container parses to `c2wav`. -/
def c2env : OpenEnv :=
  { fileExists := true, wavResult := some c2wav, content := [], allocOk := true, readOk := true }

/-- A well-formed WAV header with an empty comment. -/
def c8wav : WavInfo :=
  { bytesPerChannel := 2, chans := 1, freq := 100, offset := 44
  , numSamples := 0, infoComment := [] }

/-- An environment in which everything succeeds up to the buffer allocation,
which fails. -/
def c8env : OpenEnv :=
  { fileExists := true, wavResult := some c8wav, content := [], allocOk := false, readOk := true }

/-- An environment in which the input file cannot be opened at all. -/
def c8envNoFile : OpenEnv :=
  { fileExists := false, wavResult := none, content := [], allocOk := true, readOk := true }

/-- A comment line addressing the largest channel index reachable through a
`Scale-<digit>:` header (digit 9, channel index 8). -/
def c10text : List Char := "Scale-9:1".data

/-- A concrete opened source for exercising `SampleSourceRead`. -/
def demoSource : sample_source_t :=
  { scale := [1, 1, 1], infoComment := [], dataStartOffset := 44, numChannels := 3
  , numSamples := 5, sampleRate := 100, startTime := 0
  , buffer := some (List.replicate 74 0), bufferLength := 74 }

instance {e a : Type} [DecidableEq e] [DecidableEq a] : DecidableEq (Except e a) := fun x y =>
  match x, y with
  | .ok u, .ok v =>
    if h : u = v then .isTrue (h ▸ rfl) else .isFalse (fun he => h (Except.ok.inj he))
  | .error u, .error v =>
    if h : u = v then .isTrue (h ▸ rfl) else .isFalse (fun he => h (Except.error.inj he))
  | .ok _, .error _ => .isFalse (fun he => Except.noConfusion he)
  | .error _, .ok _ => .isFalse (fun he => Except.noConfusion he)

/-- A replicated list reads back its element below the length. -/
theorem getElem?_replicate_of_lt {α : Type} (a : α) {n i : Nat} (h : i < n) :
    (List.replicate n a)[i]? = some a := by
  induction n generalizing i with
  | zero => omega
  | succ m ih =>
    cases i with
    | zero => simp [List.replicate_succ]
    | succ j => simpa [List.replicate_succ] using ih (by omega)

/-- A replicated list reads back its element under `getD` with the same
default. -/
theorem getD_replicate_self {α : Type} (a : α) (n i : Nat) :
    (List.replicate n a).getD i a = a := by
  induction n generalizing i with
  | zero => simp [List.getD]
  | succ m ih =>
    cases i with
    | zero => rfl
    | succ j => simpa [List.replicate_succ] using ih j

/-- `Time:` branch of the loop body, in explicit form. -/
theorem processLine_time (tp : List Char → Rat) (st : MetaState) (l : List Char)
    (h : isTimeLine l = true) :
    processLine tp st l =
      { st with startTime := tp (l.drop 5)
              , parsedTime := if 0 < tp (l.drop 5) then true else st.parsedTime } := by
  simp [processLine, h]

/-- `Scale-` branch of the loop body, in explicit form. -/
theorem processLine_scale (tp : List Char → Rat) (st : MetaState) (l : List Char) (ch : Nat)
    (h : isTimeLine l = false) (h2 : scaleChan l = some ch) :
    processLine tp st l =
      { st with scale := st.scale.set ch (atofModel (l.drop 8) / 32768)
              , parsedScale := if 0 < atofModel (l.drop 8) / 32768
                  then st.parsedScale.set ch true else st.parsedScale } := by
  simp [processLine, h, h2]

/-- A line that is neither branch preserves the `parsedScale` flag of a
channel, and so does a scale line for that channel whose parsed value is not
positive, and a scale line for a different channel. -/
theorem processLine_parsedScale_getD (tp : List Char → Rat) (st : MetaState) (l : List Char)
    (i : Nat) (h : scaleChan l = some i → atofModel (l.drop 8) ≤ 0) :
    (processLine tp st l).parsedScale.getD i false = st.parsedScale.getD i false := by
  unfold processLine
  split
  · rfl
  · cases hsc : scaleChan l with
    | none => rfl
    | some ch =>
      simp only []
      split
      · rename_i hpos
        by_cases hch : ch = i
        · subst hch
          have hle := h hsc
          have hnot : ¬ (0 < atofModel (l.drop 8) / 32768) := by
            intro hlt
            nlinarith [div_pos_iff.mp hlt]
          exact absurd hpos hnot
        · simp only [List.getD]
          rw [List.get?_set_ne _ _ hch]
      · rfl

/-- A line whose scale branch does not target channel `i` leaves `scale[i]`
unchanged. -/
theorem processLine_scale_getElem? (tp : List Char → Rat) (st : MetaState) (l : List Char)
    (i : Nat) (h : scaleChan l ≠ some i) :
    (processLine tp st l).scale[i]? = st.scale[i]? := by
  unfold processLine
  split
  · rfl
  · cases hsc : scaleChan l with
    | none => rfl
    | some ch =>
      simp only []
      have hch : ch ≠ i := by intro he; exact h (he ▸ hsc)
      exact List.getElem?_set_ne hch

/-- A `Time:` line parsing to a non-positive value, or any non-`Time:` line,
preserves `parsedTime`. -/
theorem processLine_parsedTime (tp : List Char → Rat) (st : MetaState) (l : List Char)
    (h : isTimeLine l = true → tp (l.drop 5) ≤ 0) :
    (processLine tp st l).parsedTime = st.parsedTime := by
  unfold processLine
  split
  · rename_i ht
    simp only []
    rw [if_neg (by simpa using not_lt.mpr (h ht))]
  · cases scaleChan l with
    | none => rfl
    | some ch => rfl

/-- The loop body keeps `startTime` non-positive as long as every `Time:`
line parses to a non-positive value. -/
theorem processLine_startTime_nonpos (tp : List Char → Rat) (st : MetaState) (l : List Char)
    (h : isTimeLine l = true → tp (l.drop 5) ≤ 0) (hst : st.startTime ≤ 0) :
    (processLine tp st l).startTime ≤ 0 := by
  unfold processLine
  split
  · rename_i ht; exact h ht
  · cases scaleChan l with
    | none => exact hst
    | some ch => exact hst

/-- A non-`Time:` line leaves `startTime` unchanged. -/
theorem processLine_startTime_noTime (tp : List Char → Rat) (st : MetaState) (l : List Char)
    (h : isTimeLine l = false) :
    (processLine tp st l).startTime = st.startTime := by
  unfold processLine
  rw [if_neg (by simp [h])]
  cases scaleChan l with
  | none => rfl
  | some ch => rfl

/-- Loop invariant: the `parsedScale[i]` flag stays as it was when no scanned
line stores a strictly positive scale into channel `i`. -/
theorem foldl_parsedScale_getD (tp : List Char → Rat) (i : Nat) (ls : List (List Char))
    (st : MetaState) (h : ∀ l ∈ ls, scaleChan l = some i → atofModel (l.drop 8) ≤ 0) :
    (ls.foldl (processLine tp) st).parsedScale.getD i false = st.parsedScale.getD i false := by
  induction ls generalizing st with
  | nil => rfl
  | cons l rest ih =>
    rw [List.foldl_cons, ih _ (fun x hx => h x (List.mem_cons_of_mem _ hx)),
      processLine_parsedScale_getD tp st l i (h l (List.mem_cons_self _ _))]

/-- Loop invariant: `scale[i]` stays as it was when no scanned line's scale
branch targets channel `i`. -/
theorem foldl_scale_getElem? (tp : List Char → Rat) (i : Nat) (ls : List (List Char))
    (st : MetaState) (h : ∀ l ∈ ls, scaleChan l ≠ some i) :
    (ls.foldl (processLine tp) st).scale[i]? = st.scale[i]? := by
  induction ls generalizing st with
  | nil => rfl
  | cons l rest ih =>
    rw [List.foldl_cons, ih _ (fun x hx => h x (List.mem_cons_of_mem _ hx)),
      processLine_scale_getElem? tp st l i (h l (List.mem_cons_self _ _))]

/-- Loop invariant: `parsedTime` stays as it was when no scanned `Time:` line
parses to a strictly positive value. -/
theorem foldl_parsedTime (tp : List Char → Rat) (ls : List (List Char))
    (st : MetaState) (h : ∀ l ∈ ls, isTimeLine l = true → tp (l.drop 5) ≤ 0) :
    (ls.foldl (processLine tp) st).parsedTime = st.parsedTime := by
  induction ls generalizing st with
  | nil => rfl
  | cons l rest ih =>
    rw [List.foldl_cons, ih _ (fun x hx => h x (List.mem_cons_of_mem _ hx)),
      processLine_parsedTime tp st l (h l (List.mem_cons_self _ _))]

/-- Loop invariant: `startTime` stays non-positive when no scanned `Time:`
line parses to a strictly positive value. -/
theorem foldl_startTime_nonpos (tp : List Char → Rat) (ls : List (List Char))
    (st : MetaState) (h : ∀ l ∈ ls, isTimeLine l = true → tp (l.drop 5) ≤ 0)
    (hst : st.startTime ≤ 0) :
    (ls.foldl (processLine tp) st).startTime ≤ 0 := by
  induction ls generalizing st with
  | nil => exact hst
  | cons l rest ih =>
    rw [List.foldl_cons]
    exact ih _ (fun x hx => h x (List.mem_cons_of_mem _ hx))
      (processLine_startTime_nonpos tp st l (h l (List.mem_cons_self _ _)) hst)

/-- Loop invariant: `startTime` is untouched when no scanned line is a
`Time:` line. -/
theorem foldl_startTime_noTime (tp : List Char → Rat) (ls : List (List Char))
    (st : MetaState) (h : ∀ l ∈ ls, isTimeLine l = false) :
    (ls.foldl (processLine tp) st).startTime = st.startTime := by
  induction ls generalizing st with
  | nil => rfl
  | cons l rest ih =>
    rw [List.foldl_cons, ih _ (fun x hx => h x (List.mem_cons_of_mem _ hx)),
      processLine_startTime_noTime tp st l (h l (List.mem_cons_self _ _))]

/-- When the file opens, the container parses, the three format checks pass
and the allocation and read succeed, `SampleSourceOpen` returns the fully
populated source (with the metadata-parse results copied in) and a clean
resource ledger. -/
theorem SampleSourceOpen_success (numChannelsMax : Nat) (tp : List Char → Rat)
    (env : OpenEnv) (w : WavInfo)
    (hfile : env.fileExists = true) (hwav : env.wavResult = some w)
    (hbpc : w.bytesPerChannel = 2) (hch1 : 1 ≤ w.chans) (hch2 : w.chans ≤ (numChannelsMax : Int))
    (hfreq : 1 ≤ w.freq) (halloc : env.allocOk = true) (hread : env.readOk = true) :
    SampleSourceOpen numChannelsMax tp env =
      (.ok { scale := (parseCommentMeta numChannelsMax tp w.infoComment).scale
           , infoComment := w.infoComment
           , dataStartOffset := w.offset
           , numChannels := w.chans.toNat
           , numSamples := w.numSamples
           , sampleRate := w.freq
           , startTime := (parseCommentMeta numChannelsMax tp w.infoComment).startTime
           , buffer := some env.content
           , bufferLength := env.content.length },
       ⟨false, false, false⟩) := by
  unfold SampleSourceOpen
  rw [hfile, hwav]
  rw [if_neg (by simp)]
  dsimp only
  rw [if_neg (by omega)]
  rw [if_neg (by push_neg; omega)]
  rw [if_neg (by omega)]
  rw [if_neg (by simp [halloc])]
  rw [if_neg (by simp [hread])]

/-- Claim C1: for every open `SampleSource` and every in-range sample index
`i`, `SampleSourceRead(source, i, n)` returns a view into the owned buffer
whose byte offset equals `dataStartOffset + 2*i*numChannels`, and reports a
span of `2*numChannels` bytes. -/
theorem read_view_offset_span (s : sample_source_t) (i n : Nat)
    (hopen : s.buffer ≠ none) (hin : i < s.numSamples) :
    (SampleSourceRead s i n true).viewOffset = s.dataStartOffset + 2 * i * s.numChannels ∧
    (SampleSourceRead s i n true).spanOut = some (2 * s.numChannels) :=
  ⟨rfl, rfl⟩

/-- Witness for C1 at a concrete open source and index 2. -/
theorem read_view_offset_span_witness :
    (SampleSourceRead demoSource 2 1 true).viewOffset =
      demoSource.dataStartOffset + 2 * 2 * demoSource.numChannels ∧
    (SampleSourceRead demoSource 2 1 true).spanOut = some (2 * demoSource.numChannels) :=
  read_view_offset_span demoSource 2 1 (by decide) (by decide)

/-- Claim C9: for every open source, every index, every span destination and
every pair of `minCount` values, `SampleSourceRead` returns the same pointer
and reports the same span — the result is independent of `minCount`, which is
never validated against the buffer or the sample count. -/
theorem read_minCount_ignored (s : sample_source_t) (index m1 m2 : Nat) (hasSpanDest : Bool) :
    SampleSourceRead s index m1 hasSpanDest = SampleSourceRead s index m2 hasSpanDest :=
  rfl

/-- Claim C7: after `SampleSourceClose` the buffer is released and
`bufferLength = 0`; a second close is a no-op — it frees nothing and leaves
the state identical. -/
theorem close_idempotent (s : sample_source_t) :
    (SampleSourceClose s).1.bufferLength = 0 ∧
    (SampleSourceClose s).1.buffer = none ∧
    SampleSourceClose (SampleSourceClose s).1 = ((SampleSourceClose s).1, false) := by
  cases s with
  | mk scale ic dso nc ns sr st buf bl =>
    cases buf <;> simp [SampleSourceClose]

/-- Claim C2: for every input whose WAV container parses, `SampleSourceOpen`
fails with `EXIT_DATAERR` exactly when bytes-per-channel is not 2, or the
channel count lies outside `[1, SAMPLE_SOURCE_CHANNELS_MAX]`, or the sample
rate is below 1; otherwise the format validation passes. -/
theorem open_format_validation (numChannelsMax : Nat) (tp : List Char → Rat)
    (env : OpenEnv) (w : WavInfo)
    (hfile : env.fileExists = true) (hwav : env.wavResult = some w) :
    ((SampleSourceOpen numChannelsMax tp env).1 = .error .dataErr ↔
      (w.bytesPerChannel ≠ 2 ∨ w.chans < 1 ∨ (numChannelsMax : Int) < w.chans ∨ w.freq < 1)) := by
  unfold SampleSourceOpen
  rw [hfile, hwav]
  rw [if_neg (by simp)]
  dsimp only
  split_ifs with h1 h2 h3 h4 h5 <;> simp_all <;> tauto

/-- Witness for C2 at a header with 3 bytes per channel. -/
theorem open_format_validation_witness :
    ((SampleSourceOpen 9 tpZero c2env).1 = .error .dataErr ↔
      (c2wav.bytesPerChannel ≠ 2 ∨ c2wav.chans < 1 ∨ ((9 : Nat) : Int) < c2wav.chans ∨
        c2wav.freq < 1)) :=
  open_format_validation 9 tpZero c2env c2wav rfl rfl

/-- Claim C3: the round-trip comment block yields `startTime` equal to the
external time parser's value for its timestamp remainder, `scale[0] = 1/2`,
`scale[1] = 1/4`, and every channel index from 2 up keeps the default 1. -/
theorem metadata_roundtrip (numChannelsMax : Nat) (tp : List Char → Rat)
    (hN : 2 ≤ numChannelsMax) :
    (parseCommentMeta numChannelsMax tp c3text).startTime = tp c3stamp ∧
    (parseCommentMeta numChannelsMax tp c3text).scale =
      (1/2 : Rat) :: (1/4 : Rat) :: List.replicate (numChannelsMax - 2) 1 := by
  obtain ⟨k, rfl⟩ : ∃ k, numChannelsMax = k + 2 := ⟨numChannelsMax - 2, by omega⟩
  have hfold : parseCommentMeta (k + 2) tp c3text =
      processLine tp (processLine tp (processLine tp (initMeta (k + 2)) c3timeLn) c3s1Ln) c3s2Ln := by
    rw [parseCommentMeta,
      (show commentLines c3text = [c3timeLn, c3s1Ln, c3s2Ln] by decide)]
    rfl
  have e1 : processLine tp (initMeta (k + 2)) c3timeLn =
      ⟨tp c3stamp, if 0 < tp c3stamp then true else false,
        List.replicate (k + 2) 1, List.replicate (k + 2) false⟩ := by
    rw [processLine_time tp _ _ (by decide), (show c3timeLn.drop 5 = c3stamp by decide)]
    rfl
  have e2 : processLine tp
      (⟨tp c3stamp, if 0 < tp c3stamp then true else false,
        List.replicate (k + 2) 1, List.replicate (k + 2) false⟩ : MetaState) c3s1Ln =
      ⟨tp c3stamp, if 0 < tp c3stamp then true else false,
        (List.replicate (k + 2) 1).set 0 (1/2), (List.replicate (k + 2) false).set 0 true⟩ := by
    rw [processLine_scale tp _ _ 0 (by decide) (by decide),
      (show atofModel (c3s1Ln.drop 8) = 16384 by decide),
      (show (16384 : Rat) / 32768 = 1/2 by norm_num),
      if_pos (show (0:Rat) < 1/2 by norm_num)]
  have e3 : processLine tp
      (⟨tp c3stamp, if 0 < tp c3stamp then true else false,
        (List.replicate (k + 2) 1).set 0 (1/2), (List.replicate (k + 2) false).set 0 true⟩ : MetaState) c3s2Ln =
      ⟨tp c3stamp, if 0 < tp c3stamp then true else false,
        ((List.replicate (k + 2) 1).set 0 (1/2)).set 1 (1/4),
        ((List.replicate (k + 2) false).set 0 true).set 1 true⟩ := by
    rw [processLine_scale tp _ _ 1 (by decide) (by decide),
      (show atofModel (c3s2Ln.drop 8) = 8192 by decide),
      (show (8192 : Rat) / 32768 = 1/4 by norm_num),
      if_pos (show (0:Rat) < 1/4 by norm_num)]
  rw [hfold, e1, e2, e3]
  refine ⟨rfl, ?_⟩
  rw [(show k + 2 - 2 = k by omega)]
  simp [List.replicate_succ]

/-- Witness for C3 with three channels and the trivial time parser. -/
theorem metadata_roundtrip_witness :
    (parseCommentMeta 3 tpZero c3text).startTime = tpZero c3stamp ∧
    (parseCommentMeta 3 tpZero c3text).scale =
      (1/2 : Rat) :: (1/4 : Rat) :: List.replicate (3 - 2) 1 :=
  metadata_roundtrip 3 tpZero (by decide)

/-- Claim C6: a comment block containing only `Scale-5: 100` (with at least
five channels available) sets `scale[4] = 100/32768`, still emits the
missing-Scale warnings for channels 0, 1 and 2, and the missing-Scale
warning mechanism can only ever name channels below 3. -/
theorem scale5_quirk (numChannelsMax : Nat) (tp : List Char → Rat)
    (hN : 5 ≤ numChannelsMax) :
    (parseCommentMeta numChannelsMax tp c6text).scale[4]? = some ((100 : Rat) / 32768) ∧
    missingScaleWarnings (parseCommentMeta numChannelsMax tp c6text) = [0, 1, 2] ∧
    (∀ (st : MetaState), ∀ c ∈ missingScaleWarnings st, c < 3) := by
  obtain ⟨k, rfl⟩ : ∃ k, numChannelsMax = k + 5 := ⟨numChannelsMax - 5, by omega⟩
  have hfold : parseCommentMeta (k + 5) tp c6text =
      processLine tp (initMeta (k + 5)) c6line := by
    rw [parseCommentMeta, (show commentLines c6text = [c6line] by decide)]
    rfl
  have e1 : processLine tp (initMeta (k + 5)) c6line =
      ⟨0, false, (List.replicate (k + 5) 1).set 4 ((100 : Rat) / 32768),
        (List.replicate (k + 5) false).set 4 true⟩ := by
    rw [processLine_scale tp _ _ 4 (by decide) (by decide),
      (show atofModel (c6line.drop 8) = 100 by decide),
      if_pos (show (0:Rat) < 100 / 32768 by norm_num)]
    rfl
  rw [hfold, e1]
  refine ⟨?_, ?_, ?_⟩
  · rw [← List.get?_eq_getElem?,
      List.get?_set_eq_of_lt _ (by rw [List.length_replicate]; omega)]
  · have h4 : ∀ i : Nat, i < 3 →
        ((List.replicate (k + 5) false).set 4 true).getD i false = false := by
      intro i hi
      simp only [List.getD]
      rw [List.get?_set_ne _ _ (by omega), List.get?_eq_getElem?,
        getElem?_replicate_of_lt false (by omega)]
      rfl
    unfold missingScaleWarnings
    rw [(show List.range 3 = [0, 1, 2] by decide)]
    simp [List.filter, h4 0 (by omega), h4 1 (by omega), h4 2 (by omega)]
  · intro st c hc
    unfold missingScaleWarnings at hc
    exact List.mem_range.mp (List.mem_filter.mp hc).1

/-- Witness for C6 with exactly five channels. -/
theorem scale5_quirk_witness :
    (parseCommentMeta 5 tpZero c6text).scale[4]? = some ((100 : Rat) / 32768) ∧
    missingScaleWarnings (parseCommentMeta 5 tpZero c6text) = [0, 1, 2] :=
  ⟨(scale5_quirk 5 tpZero (by decide)).1, (scale5_quirk 5 tpZero (by decide)).2.1⟩

/-- Counterexample to C4 as stated: under a time parser that parses the one
`Time:` line of `c4text` to -1 (non-positive, so the claim's hypothesis
holds), a successful open yields `startTime = -1`, not the claimed 0 — the
loop stores the parsed value into `startTime` even when it is not accepted.
The missing-Time warning is still emitted. -/
theorem negative_time_counterexample :
    commentLines c4text = [c4text] ∧
    tpNegOne (c4text.drop 5) = -1 ∧
    resultStartTime (SampleSourceOpen 9 tpNegOne c4env) = .ok (-1) ∧
    resultStartTime (SampleSourceOpen 9 tpNegOne c4env) ≠ .ok 0 ∧
    timeWarning (parseCommentMeta 9 tpNegOne c4text) = true := by
  refine ⟨by decide, rfl, by decide, by decide, by decide⟩

/-- Claim C4, amended: when no `Time:` line of the comment parses to a
strictly positive value, open still succeeds (no error), the missing-Time
warning is emitted, and the resulting `startTime` is non-positive — it equals
the last parsed `Time:` value, so it is 0 whenever no `Time:` line is present
at all (but may be negative when a `Time:` line parses to a negative value). -/
theorem missing_time_defaults_amended (numChannelsMax : Nat) (tp : List Char → Rat)
    (env : OpenEnv) (w : WavInfo)
    (hfile : env.fileExists = true) (hwav : env.wavResult = some w)
    (hbpc : w.bytesPerChannel = 2) (hch1 : 1 ≤ w.chans) (hch2 : w.chans ≤ (numChannelsMax : Int))
    (hfreq : 1 ≤ w.freq) (halloc : env.allocOk = true) (hread : env.readOk = true)
    (h : ∀ l ∈ commentLines w.infoComment, isTimeLine l = true → tp (l.drop 5) ≤ 0) :
    timeWarning (parseCommentMeta numChannelsMax tp w.infoComment) = true ∧
    resultStartTime (SampleSourceOpen numChannelsMax tp env) =
      .ok (parseCommentMeta numChannelsMax tp w.infoComment).startTime ∧
    (parseCommentMeta numChannelsMax tp w.infoComment).startTime ≤ 0 ∧
    ((∀ l ∈ commentLines w.infoComment, isTimeLine l = false) →
      (parseCommentMeta numChannelsMax tp w.infoComment).startTime = 0) := by
  refine ⟨?_, ?_, ?_, ?_⟩
  · unfold timeWarning parseCommentMeta
    rw [foldl_parsedTime tp _ _ h]
    rfl
  · rw [resultStartTime,
      SampleSourceOpen_success numChannelsMax tp env w hfile hwav hbpc hch1 hch2 hfreq halloc hread]
    rfl
  · exact foldl_startTime_nonpos tp _ _ h (le_refl 0)
  · intro hno
    unfold parseCommentMeta
    rw [foldl_startTime_noTime tp _ _ hno]
    rfl

/-- Witness for the amended C4 at the `c4env` input. -/
theorem missing_time_defaults_amended_witness :
    timeWarning (parseCommentMeta 9 tpNegOne c4wav.infoComment) = true ∧
    resultStartTime (SampleSourceOpen 9 tpNegOne c4env) =
      .ok (parseCommentMeta 9 tpNegOne c4wav.infoComment).startTime ∧
    (parseCommentMeta 9 tpNegOne c4wav.infoComment).startTime ≤ 0 :=
  ⟨(missing_time_defaults_amended 9 tpNegOne c4env c4wav rfl rfl rfl (by decide) (by decide)
      (by decide) rfl rfl (by decide)).1,
   (missing_time_defaults_amended 9 tpNegOne c4env c4wav rfl rfl rfl (by decide) (by decide)
      (by decide) rfl rfl (by decide)).2.1,
   (missing_time_defaults_amended 9 tpNegOne c4env c4wav rfl rfl rfl (by decide) (by decide)
      (by decide) rfl rfl (by decide)).2.2.1⟩

/-- Counterexample to C5 as stated: the comment `Scale-1:0` has a `Scale-1:`
line whose value parses to 0, so no Scale line yields a strictly positive
scale for channel 0 and the claim's hypothesis holds; the missing-Scale
warning for channel 0 is emitted, but `scale[0]` ends up 0, not the claimed
pre-existing default 1 — the loop stores the non-positive value anyway. -/
theorem zero_scale_counterexample :
    commentLines c5text = [c5line] ∧
    scaleChan c5line = some 0 ∧
    atofModel (c5line.drop 8) = 0 ∧
    (parseCommentMeta 9 tpZero c5text).scale[0]? = some 0 ∧
    (parseCommentMeta 9 tpZero c5text).scale[0]? ≠ some 1 ∧
    0 ∈ missingScaleWarnings (parseCommentMeta 9 tpZero c5text) := by
  have hfold : parseCommentMeta 9 tpZero c5text = processLine tpZero (initMeta 9) c5line := by
    rw [parseCommentMeta, (show commentLines c5text = [c5line] by decide)]
    rfl
  have e1 : processLine tpZero (initMeta 9) c5line =
      ⟨0, false, (List.replicate 9 1).set 0 0, List.replicate 9 false⟩ := by
    rw [processLine_scale tpZero _ _ 0 (by decide) (by decide),
      (show atofModel (c5line.drop 8) = 0 by decide),
      (show (0 : Rat) / 32768 = 0 by norm_num),
      if_neg (show ¬ (0:Rat) < 0 by norm_num)]
    rfl
  refine ⟨by decide, by decide, by decide, ?_, ?_, ?_⟩
  · rw [hfold, e1]; decide
  · rw [hfold, e1]; decide
  · rw [hfold, e1]; decide

/-- Claim C5, amended: for channel `i` in {0,1,2}, when no Scale line of the
comment yields a strictly positive scale for channel `i`, the missing-Scale
warning for channel `i` is emitted; and the resulting `scale[i]` equals the
pre-existing default 1 provided no `Scale-(i+1)` line is present at all (a
present line with a non-positive value overwrites the default instead). -/
theorem missing_scale_defaults_amended (numChannelsMax : Nat) (tp : List Char → Rat)
    (env : OpenEnv) (w : WavInfo) (i : Nat)
    (hi : i < 3) (hN : 3 ≤ numChannelsMax)
    (hfile : env.fileExists = true) (hwav : env.wavResult = some w)
    (hbpc : w.bytesPerChannel = 2) (hch1 : 1 ≤ w.chans) (hch2 : w.chans ≤ (numChannelsMax : Int))
    (hfreq : 1 ≤ w.freq) (halloc : env.allocOk = true) (hread : env.readOk = true)
    (hnopos : ∀ l ∈ commentLines w.infoComment, scaleChan l = some i → atofModel (l.drop 8) ≤ 0) :
    i ∈ missingScaleWarnings (parseCommentMeta numChannelsMax tp w.infoComment) ∧
    ((∀ l ∈ commentLines w.infoComment, scaleChan l ≠ some i) →
      resultScaleAt i (SampleSourceOpen numChannelsMax tp env) = .ok (some 1)) := by
  refine ⟨?_, ?_⟩
  · refine List.mem_filter.mpr ⟨List.mem_range.mpr hi, ?_⟩
    unfold parseCommentMeta
    rw [foldl_parsedScale_getD tp i _ _ hnopos]
    simp [initMeta, getD_replicate_self]
  · intro hno
    rw [resultScaleAt,
      SampleSourceOpen_success numChannelsMax tp env w hfile hwav hbpc hch1 hch2 hfreq halloc hread]
    unfold parseCommentMeta
    show Except.ok ((List.foldl (processLine tp) (initMeta numChannelsMax)
      (commentLines w.infoComment)).scale[i]?) = _
    rw [foldl_scale_getElem? tp i _ _ hno]
    rw [(show (initMeta numChannelsMax).scale = List.replicate numChannelsMax 1 from rfl),
      getElem?_replicate_of_lt 1 (by omega)]

/-- Witness for the amended C5 at channel 0 of an empty comment. -/
theorem missing_scale_defaults_amended_witness :
    0 ∈ missingScaleWarnings (parseCommentMeta 9 tpZero c5wav.infoComment) ∧
    resultScaleAt 0 (SampleSourceOpen 9 tpZero c5env) = .ok (some 1) :=
  ⟨(missing_scale_defaults_amended 9 tpZero c5env c5wav 0 (by decide) (by decide) rfl rfl rfl
      (by decide) (by decide) (by decide) rfl rfl (by decide)).1,
   (missing_scale_defaults_amended 9 tpZero c5env c5wav 0 (by decide) (by decide) rfl rfl rfl
      (by decide) (by decide) (by decide) rfl rfl (by decide)).2 (by decide)⟩

/-- The mutating model agrees with `SampleSourceOpen` on every input: same
exit code, same resource ledger, and on success the final struct is exactly
the source `SampleSourceOpen` returns (every field is overwritten on the
success path, so the incoming struct no longer matters). -/
theorem SampleSourceOpenMut_agrees (numChannelsMax : Nat) (tp : List Char → Rat)
    (env : OpenEnv) (s0 : sample_source_t) :
    (SampleSourceOpenMut numChannelsMax tp env s0).1 =
      resultCode (SampleSourceOpen numChannelsMax tp env).1 ∧
    (SampleSourceOpenMut numChannelsMax tp env s0).2.2 =
      (SampleSourceOpen numChannelsMax tp env).2 ∧
    (∀ s, (SampleSourceOpen numChannelsMax tp env).1 = .ok s →
      (SampleSourceOpenMut numChannelsMax tp env s0).2.1 = s) := by
  unfold SampleSourceOpenMut SampleSourceOpen
  by_cases h1 : env.fileExists = false
  · simp [h1, resultCode]
  · rw [if_neg h1, if_neg h1]
    cases hw : env.wavResult with
    | none => simp [resultCode]
    | some w =>
      dsimp only
      by_cases h2 : w.bytesPerChannel ≠ 2
      · simp [h2, resultCode]
      · rw [if_neg h2, if_neg h2]
        by_cases h3 : w.chans < 1 ∨ (numChannelsMax : Int) < w.chans
        · simp [h3, resultCode]
        · rw [if_neg h3, if_neg h3]
          by_cases h4 : w.freq < 1
          · simp [h4, resultCode]
          · rw [if_neg h4, if_neg h4]
            by_cases h5 : env.allocOk = false
            · simp [h5, resultCode]
            · rw [if_neg h5, if_neg h5]
              by_cases h6 : env.readOk = false
              · simp [h6, resultCode]
              · rw [if_neg h6, if_neg h6]
                refine ⟨rfl, rfl, ?_⟩
                intro s hs
                rw [← Except.ok.inj hs]

/-- Counterexample to C8 as stated: when the buffer allocation fails after a
well-formed header, open returns `EXIT_SOFTWARE` with the file handle closed
and no data buffer outstanding, but the `strdup`-ed comment text has not
been freed, and the caller's `sample_source_t`, initially all-zero, has been
left partially populated — the default scales (lines 113-116) and the header
fields and start time (lines 174-178) were already written into it before
the failing `malloc`, while the buffer fields were never set.  So both the
"duplicated comment text freed" and the "not left partially populated"
conjuncts of the claim fail on this path. -/
theorem open_partial_state_counterexample :
    (SampleSourceOpenMut 9 tpZero c8env zeroSource).1 = .software ∧
    (SampleSourceOpenMut 9 tpZero c8env zeroSource).2.2.commentAlloc = true ∧
    (SampleSourceOpenMut 9 tpZero c8env zeroSource).2.2.fileOpen = false ∧
    (SampleSourceOpenMut 9 tpZero c8env zeroSource).2.2.bufferAlloc = false ∧
    (SampleSourceOpenMut 9 tpZero c8env zeroSource).2.1.scale = List.replicate 9 1 ∧
    (SampleSourceOpenMut 9 tpZero c8env zeroSource).2.1.dataStartOffset = 44 ∧
    (SampleSourceOpenMut 9 tpZero c8env zeroSource).2.1.numChannels = 1 ∧
    (SampleSourceOpenMut 9 tpZero c8env zeroSource).2.1.sampleRate = 100 ∧
    (SampleSourceOpenMut 9 tpZero c8env zeroSource).2.1 ≠ zeroSource ∧
    (SampleSourceOpenMut 9 tpZero c8env zeroSource).2.1.buffer = none := by
  decide

/-- Claim C8, amended: on every failing path of open, the file handle is
closed and no partially allocated data buffer is left outstanding, and on
the `EXIT_NOINPUT` and `EXIT_DATAERR` paths no duplicated comment text is
outstanding either; but the comment text is leaked on the `EXIT_SOFTWARE`
and `EXIT_IOERR` paths, and the SampleSource IS left partially populated:
only an `EXIT_NOINPUT` failure leaves the caller's struct untouched, the
buffer fields are never written on a failing path, and on the
`EXIT_SOFTWARE`/`EXIT_IOERR` paths the struct already holds the header
fields, the start time and the parsed scales written before the failing
allocation or read. -/
theorem open_failure_cleanup_amended (numChannelsMax : Nat) (tp : List Char → Rat)
    (env : OpenEnv) (s0 : sample_source_t) (e : exit_code) (sFin : sample_source_t)
    (R : Resources)
    (h : SampleSourceOpenMut numChannelsMax tp env s0 = (e, sFin, R))
    (he : e ≠ .ok) :
    R.fileOpen = false ∧ R.bufferAlloc = false ∧
    ((e = .noInput ∨ e = .dataErr) → R.commentAlloc = false) ∧
    ((e = .software ∨ e = .ioErr) → R.commentAlloc = true) ∧
    (e = .noInput → sFin = s0) ∧
    sFin.buffer = s0.buffer ∧
    sFin.bufferLength = s0.bufferLength ∧
    ((e = .software ∨ e = .ioErr) → ∀ w, env.wavResult = some w →
      (sFin.dataStartOffset = w.offset ∧ sFin.numChannels = w.chans.toNat ∧
       sFin.numSamples = w.numSamples ∧ sFin.sampleRate = w.freq ∧
       sFin.startTime = (parseCommentMeta numChannelsMax tp w.infoComment).startTime ∧
       sFin.scale = (parseCommentMeta numChannelsMax tp w.infoComment).scale)) := by
  unfold SampleSourceOpenMut at h
  split at h
  · obtain ⟨h1, h2⟩ := Prod.mk.inj h
    obtain ⟨h3, h4⟩ := Prod.mk.inj h2
    cases h1
    cases h3
    cases h4
    exact ⟨rfl, rfl, fun _ => rfl, fun hc => absurd hc (by decide), fun _ => rfl, rfl, rfl,
      fun hc => absurd hc (by decide)⟩
  · split at h
    · obtain ⟨h1, h2⟩ := Prod.mk.inj h
      obtain ⟨h3, h4⟩ := Prod.mk.inj h2
      cases h1
      cases h3
      cases h4
      exact ⟨rfl, rfl, fun _ => rfl, fun hc => absurd hc (by decide),
        fun hc => absurd hc (by decide), rfl, rfl, fun hc => absurd hc (by decide)⟩
    · rename_i w heq
      split at h
      · obtain ⟨h1, h2⟩ := Prod.mk.inj h
        obtain ⟨h3, h4⟩ := Prod.mk.inj h2
        cases h1
        cases h3
        cases h4
        exact ⟨rfl, rfl, fun _ => rfl, fun hc => absurd hc (by decide),
          fun hc => absurd hc (by decide), rfl, rfl, fun hc => absurd hc (by decide)⟩
      · split at h
        · obtain ⟨h1, h2⟩ := Prod.mk.inj h
          obtain ⟨h3, h4⟩ := Prod.mk.inj h2
          cases h1
          cases h3
          cases h4
          exact ⟨rfl, rfl, fun _ => rfl, fun hc => absurd hc (by decide),
            fun hc => absurd hc (by decide), rfl, rfl, fun hc => absurd hc (by decide)⟩
        · split at h
          · obtain ⟨h1, h2⟩ := Prod.mk.inj h
            obtain ⟨h3, h4⟩ := Prod.mk.inj h2
            cases h1
            cases h3
            cases h4
            exact ⟨rfl, rfl, fun _ => rfl, fun hc => absurd hc (by decide),
              fun hc => absurd hc (by decide), rfl, rfl, fun hc => absurd hc (by decide)⟩
          · split at h
            · obtain ⟨h1, h2⟩ := Prod.mk.inj h
              obtain ⟨h3, h4⟩ := Prod.mk.inj h2
              cases h1
              cases h3
              cases h4
              refine ⟨rfl, rfl, fun hc => absurd hc (by decide), fun _ => rfl,
                fun hc => absurd hc (by decide), rfl, rfl, ?_⟩
              intro _ w2 hw2
              rw [heq] at hw2
              cases Option.some.inj hw2
              exact ⟨rfl, rfl, rfl, rfl, rfl, rfl⟩
            · split at h
              · obtain ⟨h1, h2⟩ := Prod.mk.inj h
                obtain ⟨h3, h4⟩ := Prod.mk.inj h2
                cases h1
                cases h3
                cases h4
                refine ⟨rfl, rfl, fun hc => absurd hc (by decide), fun _ => rfl,
                  fun hc => absurd hc (by decide), rfl, rfl, ?_⟩
                intro _ w2 hw2
                rw [heq] at hw2
                cases Option.some.inj hw2
                exact ⟨rfl, rfl, rfl, rfl, rfl, rfl⟩
              · obtain ⟨h1, h2⟩ := Prod.mk.inj h
                cases h1
                exact absurd rfl he

/-- Witness for the amended C8 on the unopenable-file path: the struct is
untouched, the ledger is clean. -/
theorem open_failure_cleanup_amended_witness :
    (Resources.mk false false false).fileOpen = false ∧
    (Resources.mk false false false).bufferAlloc = false ∧
    ((exit_code.noInput = .noInput ∨ exit_code.noInput = .dataErr) →
      (Resources.mk false false false).commentAlloc = false) ∧
    ((exit_code.noInput = .software ∨ exit_code.noInput = .ioErr) →
      (Resources.mk false false false).commentAlloc = true) ∧
    (exit_code.noInput = .noInput → zeroSource = zeroSource) ∧
    zeroSource.buffer = zeroSource.buffer ∧
    zeroSource.bufferLength = zeroSource.bufferLength := by
  have T := open_failure_cleanup_amended 9 tpZero c8envNoFile zeroSource .noInput zeroSource
    ⟨false, false, false⟩ rfl (by decide)
  exact ⟨T.1, T.2.1, T.2.2.1, T.2.2.2.1, T.2.2.2.2.1, T.2.2.2.2.2.1, T.2.2.2.2.2.2.1⟩

/-- Claim C10: every channel index written through a `Scale-<digit>:` line is
`digit - 1`, which lies in `[0, 8]`; hence all such writes land inside the
`SAMPLE_SOURCE_CHANNELS_MAX`-sized arrays for every possible comment exactly
when `SAMPLE_SOURCE_CHANNELS_MAX ≥ 9` (and nothing ties the written index to
the file's own channel count). -/
theorem scale_write_bounds (numChannelsMax : Nat) :
    (∀ (cs : List Char), ∀ c ∈ scaleWriteIndices cs, c ≤ 8) ∧
    ((∀ (cs : List Char), ∀ c ∈ scaleWriteIndices cs, c < numChannelsMax) ↔
      9 ≤ numChannelsMax) := by
  have hle : ∀ (cs : List Char), ∀ c ∈ scaleWriteIndices cs, c ≤ 8 := by
    intro cs c hc
    unfold scaleWriteIndices at hc
    rw [List.mem_filterMap] at hc
    obtain ⟨l, hl, hcl⟩ := hc
    unfold scaleChan at hcl
    split at hcl
    · split at hcl
      · split at hcl
        · rename_i c6 c7 hcond
          rw [Option.some.injEq] at hcl
          subst hcl
          simp only [Bool.and_eq_true, decide_eq_true_eq, beq_iff_eq] at hcond
          have h9 : Char.toNat '9' = 57 := rfl
          have h1 : Char.toNat '1' = 49 := rfl
          omega
        · exact absurd hcl (by simp)
      · exact absurd hcl (by simp)
    · exact absurd hcl (by simp)
  refine ⟨hle, ?_, ?_⟩
  · intro hall
    by_contra hlt
    have h8 : (8 : Nat) ∈ scaleWriteIndices c10text := by decide
    have := hall c10text 8 h8
    omega
  · intro h9 cs c hc
    have := hle cs c hc
    omega

end SampleSourceC
